import Mathlib

/-!
Verification development for the gowarcraft3 `network` package
(connection handles, run loops, error classification, rate limiter).

Go `error` values are modelled by the inductive `GoError`; Go's `nil`
error is the constructor `GoError.nilError`.  Wrapper kinds carry their
wrapped error as a field.  Arbitrary user-defined errors that may or may
not implement the `temporary`/`timeout` capability interfaces are
modelled by `GoError.iface` (an `Option Bool` field of `none` means the
capability is not implemented).
-/

/-- The four sentinel decode-error values shared in shape by the w3gs and
bncs codecs: `ErrInvalidPacketSize`, `ErrInvalidChecksum`,
`ErrUnexpectedConst`, `ErrBufferTooSmall`. -/
inductive DecodeErrKind where
  | invalidPacketSize
  | invalidChecksum
  | unexpectedConst
  | bufferTooSmall
deriving DecidableEq, Repr

/-- Model of the Go `error` universe as used by the network package.
`nilError` is Go's nil error.  `asyncError`, `opError`, `syscallError`,
`pathError`, `linkError` are the five wrapper kinds recognized by
`UnnestError`.  `errno` is `syscall.Errno` (Linux numbering, plus the
Windows `WSA*` numeric equivalents used as plain numbers in the source).
`iface temp tmo msg` is an arbitrary error value that implements
`Temporary() bool` iff `temp ≠ none` and `Timeout() bool` iff
`tmo ≠ none`, with message `msg`. -/
inductive GoError where
  | nilError
  | eof
  | asyncError (src : String) (err : GoError)
  | opError (err : GoError)
  | syscallError (err : GoError)
  | pathError (err : GoError)
  | linkError (err : GoError)
  | errno (n : Nat)
  | stringError (msg : String)
  | wsCloseError (code : Nat)
  | wsErrCloseSent
  | w3gsDecodeError (k : DecodeErrKind)
  | bncsDecodeError (k : DecodeErrKind)
  | jsonSyntaxError (off : Nat)
  | jsonUnmarshalTypeError (value : String)
  | iface (temp : Option Bool) (tmo : Option Bool) (msg : String)
deriving DecidableEq, Repr

/-- Linux message table for `syscall.Errno.Error()`; only its inequality
with the closed-connection message matters to the classifiers. -/
def errnoString (n : Nat) : String :=
  if n = 2 then "no such file or directory"
  else if n = 32 then "broken pipe"
  else if n = 104 then "connection reset by peer"
  else if n = 111 then "connection refused"
  else "errno"

/-- The `Error() string` method of each modelled error value.  The
`asyncError` case is the source's `AsyncError.Error` (src + ":" + cause,
with "NIL" for a nil cause). -/
def errorString : GoError → String
  | .nilError => "<nil>"
  | .eof => "EOF"
  | .asyncError src e =>
      src ++ ":" ++ (match e with | .nilError => "NIL" | x => errorString x)
  | .opError e => "op: " ++ errorString e
  | .syscallError e => "syscall: " ++ errorString e
  | .pathError e => "path: " ++ errorString e
  | .linkError e => "link: " ++ errorString e
  | .errno n => errnoString n
  | .stringError m => m
  | .wsCloseError _ => "websocket: close error"
  | .wsErrCloseSent => "websocket: close sent"
  | .w3gsDecodeError .invalidPacketSize => "invalid packet size"
  | .w3gsDecodeError .invalidChecksum => "checksum invalid"
  | .w3gsDecodeError .unexpectedConst => "unexpected constant"
  | .w3gsDecodeError .bufferTooSmall => "buffer too small"
  | .bncsDecodeError .invalidPacketSize => "invalid packet size"
  | .bncsDecodeError .invalidChecksum => "checksum invalid"
  | .bncsDecodeError .unexpectedConst => "unexpected constant"
  | .bncsDecodeError .bufferTooSmall => "buffer too small"
  | .jsonSyntaxError _ => "invalid character"
  | .jsonUnmarshalTypeError _ => "json: cannot unmarshal"
  | .iface _ _ m => m

/-- `UnnestError` retrieves the innermost error (src/network/error.go):
a type switch recursing through the five wrapper kinds, identity
otherwise (including on nil). -/
def unnestError : GoError → GoError
  | .asyncError _ e => unnestError e
  | .opError e => unnestError e
  | .syscallError e => unnestError e
  | .pathError e => unnestError e
  | .linkError e => unnestError e
  | e => e

/-- True exactly on the five wrapper kinds recognized by `UnnestError`. -/
def isWrapper : GoError → Bool
  | .asyncError _ _ => true
  | .opError _ => true
  | .syscallError _ => true
  | .pathError _ => true
  | .linkError _ => true
  | _ => false

theorem unnestError_eq_self_of_not_wrapper (e : GoError) (h : isWrapper e = false) :
    unnestError e = e := by
  cases e <;> simp [isWrapper] at h <;> rfl

theorem isWrapper_unnestError (e : GoError) : isWrapper (unnestError e) = false := by
  induction e <;> simp only [unnestError] <;> first | assumption | rfl

theorem unnestError_unnestError (e : GoError) :
    unnestError (unnestError e) = unnestError e :=
  unnestError_eq_self_of_not_wrapper _ (isWrapper_unnestError e)

/-- The string compared by `IsUseClosedNetworkError`. -/
def closedMsg : String := "use of closed network connection"

/-- `IsUseClosedNetworkError` (src/network/error.go): err ≠ nil and its
message equals `closedMsg`. -/
def isUseClosedNetworkError (e : GoError) : Bool :=
  decide (e ≠ GoError.nilError ∧ errorString e = closedMsg)

/-- `IsSysCallError` (src/network/error.go): unnest, nil check, cast to
`syscall.Errno`, membership in the given code list. -/
def isSysCallError (e : GoError) (errnos : List Nat) : Bool :=
  match unnestError e with
  | .errno n => errnos.contains n
  | _ => false

/-- `websocket.IsCloseError(err, codes...)`: err is a `*CloseError`
whose code is in the list. -/
def isCloseError (e : GoError) (codes : List Nat) : Bool :=
  match e with
  | .wsCloseError c => codes.contains c
  | _ => false

/-- `websocket.IsUnexpectedCloseError(err)` with no expected codes:
err is any `*CloseError`. -/
def isUnexpectedCloseError (e : GoError) : Bool :=
  match e with
  | .wsCloseError _ => true
  | _ => false

/-- `IsConnRefusedError` (src/network/error.go): unnest, then
`ECONNREFUSED` (111) / `WSAECONNREFUSED` (10061), else a websocket
close error with code `CloseTLSHandshake` (1015) or
`CloseMandatoryExtension` (1010). -/
def isConnRefusedError (e : GoError) : Bool :=
  let u := unnestError e
  if isSysCallError u [111, 10061] then true
  else isCloseError u [1015, 1010]

/-- The syscall codes listed in `IsConnClosedError`: ECONNABORTED (103),
ECONNRESET (104), ENOTCONN (107), ESHUTDOWN (108), EPIPE (32), and the
Windows equivalents WSAECONNABORTED (10053), WSAECONNRESET (10054),
WSAENOTCONN (10057), WSAESHUTDOWN (10058). -/
def connClosedCodes : List Nat := [103, 104, 107, 108, 32, 10053, 10054, 10057, 10058]

/-- `IsConnClosedError` (src/network/error.go). -/
def isConnClosedError (e : GoError) : Bool :=
  let u := unnestError e
  if u = GoError.eof ∨ isUseClosedNetworkError u then true
  else if isSysCallError u connClosedCodes then true
  else decide (u = GoError.wsErrCloseSent) || isUnexpectedCloseError u

/-- `syscall.Errno.Timeout()`: EAGAIN (11) or ETIMEDOUT (110)
(EWOULDBLOCK = EAGAIN on Linux). -/
def errnoTimeout (n : Nat) : Bool := n = 11 || n = 110

/-- `syscall.Errno.Temporary()`: EINTR (4), EMFILE (24), ENFILE (23)
or a timeout errno. -/
def errnoTemporary (n : Nat) : Bool := n = 4 || n = 24 || n = 23 || errnoTimeout n

/-- The `timeout` capability cast of a non-wrapper error value, as
consulted on the result of `UnnestError` (which is never a wrapper,
`isWrapper_unnestError`): only `syscall.Errno` and capability-carrying
user errors implement `Timeout() bool` among the base kinds. -/
def baseTimeoutM : GoError → Option Bool
  | .errno n => some (errnoTimeout n)
  | .iface _ tmo _ => tmo
  | _ => none

/-- The `temporary` capability cast of a non-wrapper error value. -/
def baseTemporaryM : GoError → Option Bool
  | .errno n => some (errnoTemporary n)
  | .iface t _ _ => t
  | _ => none

/-- The `timeout` capability cast `err.(timeout)` with the resulting
`Timeout()` value: `some b` iff the value implements the interface and
`Timeout()` returns `b`.  `AsyncError.Timeout()` is
`IsTimeoutError(e.Err)` (src/network/error.go); `net.OpError.Timeout()`
skips one `os.SyscallError` then casts the inner error;
`os.SyscallError.Timeout()` and `fs.PathError.Timeout()` cast their
inner error. -/
def timeoutM : GoError → Option Bool
  | .asyncError _ e =>
      some ((timeoutM e).getD ((baseTimeoutM (unnestError e)).getD false))
  | .opError (.syscallError i) => some ((timeoutM i).getD false)
  | .opError e => some ((timeoutM e).getD false)
  | .syscallError e => some ((timeoutM e).getD false)
  | .pathError e => some ((timeoutM e).getD false)
  | .errno n => some (errnoTimeout n)
  | .iface _ tmo _ => tmo
  | _ => none

/-- `IsTimeoutError` (src/network/error.go): nil is false; cast err to
`timeout`, else cast `UnnestError(err)`; return ok && t.Timeout(). -/
def isTimeoutError (e : GoError) : Bool :=
  (timeoutM e).getD ((baseTimeoutM (unnestError e)).getD false)

/-- The `temporary` capability cast `err.(temporary)` with the
resulting `Temporary()` value.  `AsyncError.Temporary()` is
`IsTemporaryError(e.Err)`; `net.OpError.Temporary()` skips one
`os.SyscallError` then casts the inner error; `syscall.Errno` and the
generic capability carrier report directly. -/
def temporaryM : GoError → Option Bool
  | .asyncError _ e =>
      some (((temporaryM e).orElse (fun _ => baseTemporaryM (unnestError e))).getD
        (isTimeoutError e))
  | .opError (.syscallError i) => some ((temporaryM i).getD false)
  | .opError e => some ((temporaryM e).getD false)
  | .errno n => some (errnoTemporary n)
  | .iface t _ _ => t
  | _ => none

/-- `IsTemporaryError` (src/network/error.go): nil is false; cast err to
`temporary`, else cast `UnnestError(err)`; if either cast succeeds
return `Temporary()`, else fall back to `IsTimeoutError`. -/
def isTemporaryError (e : GoError) : Bool :=
  ((temporaryM e).orElse (fun _ => baseTemporaryM (unnestError e))).getD
    (isTimeoutError e)

/-!
## Run loops

Each `Run` function is modelled over the finite list of successive
`NextPacket` outcomes it observes.  An outcome is the pair the receive
call returns: a packet value and an error (`GoError.nilError` on
success; on a non-nil error the Go packet result is nil and the packet
component of the pair is ignored by the loop).  The loop result is the
fired-event trace plus `some err` when the loop returned `err`, or
`none` when the outcome list was exhausted with the loop still running
(in the source the loop would block on the next read).
-/

/-- One `Fire` occurrence of a run loop. -/
inductive Ev (F : Type) where
  | runStart
  | runStop
  | asyncError (src : String) (err : GoError)
  | fire (f : F)
deriving DecidableEq, Repr

/-- `capi.Packet`: a command string plus an inner payload value
(opaque, modelled as a number). -/
structure CAPIPacket where
  command : String
  payload : Nat
deriving DecidableEq, Repr

/-- The two `Fire` calls the CAPI run loop performs per decoded packet:
`Fire(pkt)` and `Fire(pkt.Payload, pkt)`. -/
inductive CAPIFire where
  | packet (p : CAPIPacket)
  | payload (pl : Nat) (p : CAPIPacket)
deriving DecidableEq, Repr

/-- The recoverable set of `W3GSPacketConn.Run`/`W3GSConn.Run`:
`w3gs.ErrInvalidPacketSize`, `ErrInvalidChecksum`, `ErrUnexpectedConst`,
`ErrBufferTooSmall`. -/
def w3gsRecoverable : GoError → Bool
  | .w3gsDecodeError _ => true
  | _ => false

/-- The recoverable set of `BNCSConn.RunServer`/`RunClient`:
`bncs.ErrInvalidPacketSize`, `ErrInvalidChecksum`, `ErrUnexpectedConst`,
`ErrBufferTooSmall`. -/
def bncsRecoverable : GoError → Bool
  | .bncsDecodeError _ => true
  | _ => false

/-- The recoverable set of `CAPIConn.Run`: a type switch on
`*json.SyntaxError` and `*json.UnmarshalTypeError`. -/
def capiRecoverable : GoError → Bool
  | .jsonSyntaxError _ => true
  | .jsonUnmarshalTypeError _ => true
  | _ => false

/-- Loop body of `W3GSPacketConn.Run` (src/unnamed/part_000): outcomes
are `(pkt, addr)` pairs with an error; on success `Fire(pkt, addr)`. -/
def w3gsPacketRunLoop : List ((Nat × Nat) × GoError) → List (Ev (Nat × Nat)) × Option GoError
  | [] => ([], none)
  | (pa, err) :: rest =>
    if err ≠ GoError.nilError then
      if w3gsRecoverable err then
        (Ev.asyncError "Run[NextPacket]" err :: (w3gsPacketRunLoop rest).1,
         (w3gsPacketRunLoop rest).2)
      else ([Ev.runStop], some err)
    else (Ev.fire pa :: (w3gsPacketRunLoop rest).1, (w3gsPacketRunLoop rest).2)

/-- `W3GSPacketConn.Run`: fires `RunStart`, then drives the loop. -/
def w3gsPacketRun (outs : List ((Nat × Nat) × GoError)) : List (Ev (Nat × Nat)) × Option GoError :=
  (Ev.runStart :: (w3gsPacketRunLoop outs).1, (w3gsPacketRunLoop outs).2)

/-- Loop body of `W3GSConn.Run` (src/unnamed/part_000). -/
def w3gsConnRunLoop : List (Nat × GoError) → List (Ev Nat) × Option GoError
  | [] => ([], none)
  | (pkt, err) :: rest =>
    if err ≠ GoError.nilError then
      if w3gsRecoverable err then
        (Ev.asyncError "Run[NextPacket]" err :: (w3gsConnRunLoop rest).1,
         (w3gsConnRunLoop rest).2)
      else ([Ev.runStop], some err)
    else (Ev.fire pkt :: (w3gsConnRunLoop rest).1, (w3gsConnRunLoop rest).2)

/-- `W3GSConn.Run`. -/
def w3gsConnRun (outs : List (Nat × GoError)) : List (Ev Nat) × Option GoError :=
  (Ev.runStart :: (w3gsConnRunLoop outs).1, (w3gsConnRunLoop outs).2)

/-- Loop body of `BNCSConn.RunServer` (src/unnamed/part_000), reading
client packets; the async source tag is "RunServer[NextPacket]". -/
def bncsRunServerLoop : List (Nat × GoError) → List (Ev Nat) × Option GoError
  | [] => ([], none)
  | (pkt, err) :: rest =>
    if err ≠ GoError.nilError then
      if bncsRecoverable err then
        (Ev.asyncError "RunServer[NextPacket]" err :: (bncsRunServerLoop rest).1,
         (bncsRunServerLoop rest).2)
      else ([Ev.runStop], some err)
    else (Ev.fire pkt :: (bncsRunServerLoop rest).1, (bncsRunServerLoop rest).2)

/-- `BNCSConn.RunServer`. -/
def bncsRunServer (outs : List (Nat × GoError)) : List (Ev Nat) × Option GoError :=
  (Ev.runStart :: (bncsRunServerLoop outs).1, (bncsRunServerLoop outs).2)

/-- Loop body of `BNCSConn.RunClient` (src/unnamed/part_000), reading
server packets; the async source tag is "RunClient[NextPacket]". -/
def bncsRunClientLoop : List (Nat × GoError) → List (Ev Nat) × Option GoError
  | [] => ([], none)
  | (pkt, err) :: rest =>
    if err ≠ GoError.nilError then
      if bncsRecoverable err then
        (Ev.asyncError "RunClient[NextPacket]" err :: (bncsRunClientLoop rest).1,
         (bncsRunClientLoop rest).2)
      else ([Ev.runStop], some err)
    else (Ev.fire pkt :: (bncsRunClientLoop rest).1, (bncsRunClientLoop rest).2)

/-- `BNCSConn.RunClient`. -/
def bncsRunClient (outs : List (Nat × GoError)) : List (Ev Nat) × Option GoError :=
  (Ev.runStart :: (bncsRunClientLoop outs).1, (bncsRunClientLoop outs).2)

/-- Loop body of `CAPIConn.Run` (src/unnamed/part_000): on success the
loop performs `f.Fire(pkt)` and then `f.Fire(pkt.Payload, pkt)`. -/
def capiRunLoop : List (CAPIPacket × GoError) → List (Ev CAPIFire) × Option GoError
  | [] => ([], none)
  | (pkt, err) :: rest =>
    if err ≠ GoError.nilError then
      if capiRecoverable err then
        (Ev.asyncError "Run[NextPacket]" err :: (capiRunLoop rest).1,
         (capiRunLoop rest).2)
      else ([Ev.runStop], some err)
    else
      (Ev.fire (CAPIFire.packet pkt) :: Ev.fire (CAPIFire.payload pkt.payload pkt) ::
         (capiRunLoop rest).1,
       (capiRunLoop rest).2)

/-- `CAPIConn.Run`. -/
def capiRun (outs : List (CAPIPacket × GoError)) : List (Ev CAPIFire) × Option GoError :=
  (Ev.runStart :: (capiRunLoop outs).1, (capiRunLoop outs).2)

theorem w3gsPacketRunLoop_ne_nil (outs : List ((Nat × Nat) × GoError)) :
    (w3gsPacketRunLoop outs).2 ≠ some GoError.nilError := by
  induction outs with
  | nil => simp [w3gsPacketRunLoop]
  | cons o rest ih =>
    obtain ⟨pa, err⟩ := o
    by_cases h : err = GoError.nilError
    · simp [w3gsPacketRunLoop, h, ih]
    · by_cases hr : w3gsRecoverable err = true <;>
        simp [w3gsPacketRunLoop, h, hr, ih, Ne.symm h]

theorem w3gsConnRunLoop_ne_nil (outs : List (Nat × GoError)) :
    (w3gsConnRunLoop outs).2 ≠ some GoError.nilError := by
  induction outs with
  | nil => simp [w3gsConnRunLoop]
  | cons o rest ih =>
    obtain ⟨pkt, err⟩ := o
    by_cases h : err = GoError.nilError
    · simp [w3gsConnRunLoop, h, ih]
    · by_cases hr : w3gsRecoverable err = true <;>
        simp [w3gsConnRunLoop, h, hr, ih, Ne.symm h]

theorem bncsRunServerLoop_ne_nil (outs : List (Nat × GoError)) :
    (bncsRunServerLoop outs).2 ≠ some GoError.nilError := by
  induction outs with
  | nil => simp [bncsRunServerLoop]
  | cons o rest ih =>
    obtain ⟨pkt, err⟩ := o
    by_cases h : err = GoError.nilError
    · simp [bncsRunServerLoop, h, ih]
    · by_cases hr : bncsRecoverable err = true <;>
        simp [bncsRunServerLoop, h, hr, ih, Ne.symm h]

theorem bncsRunClientLoop_ne_nil (outs : List (Nat × GoError)) :
    (bncsRunClientLoop outs).2 ≠ some GoError.nilError := by
  induction outs with
  | nil => simp [bncsRunClientLoop]
  | cons o rest ih =>
    obtain ⟨pkt, err⟩ := o
    by_cases h : err = GoError.nilError
    · simp [bncsRunClientLoop, h, ih]
    · by_cases hr : bncsRecoverable err = true <;>
        simp [bncsRunClientLoop, h, hr, ih, Ne.symm h]

theorem capiRunLoop_ne_nil (outs : List (CAPIPacket × GoError)) :
    (capiRunLoop outs).2 ≠ some GoError.nilError := by
  induction outs with
  | nil => simp [capiRunLoop]
  | cons o rest ih =>
    obtain ⟨pkt, err⟩ := o
    by_cases h : err = GoError.nilError
    · simp [capiRunLoop, h, ih]
    · by_cases hr : capiRecoverable err = true <;>
        simp [capiRunLoop, h, hr, ih, Ne.symm h]

/-!
## Connection handles

Each handle is modelled by a structure holding the fields of the Go
struct that the operations touch: the transport reference (`conn`, an
`Option Nat` transport identifier), the reusable serialization buffer
(`sbuf`), the deserialization buffer (`rbuf`, opaque), the fixed read
buffer (`bbuf`, datagram variant only) and the rate-limiter timestamp
(`lnxt`, BNCS only).  External collaborators (codec, socket) are passed
as oracle arguments giving the result of each external call.  Closing a
transport is modelled against a world `Nat → Bool` recording which
transport identifiers have been closed.
-/

/-- `W3GSPacketConn` (UDP): transport, send buffer, fixed read buffer,
deserialization buffer. -/
structure W3GSPacketConnState where
  conn : Option Nat
  sbuf : List Nat
  bbuf : List Nat
  rbuf : Nat
deriving DecidableEq, Repr

/-- `W3GSConn` (TCP): transport, send buffer, deserialization buffer. -/
structure W3GSConnState where
  conn : Option Nat
  sbuf : List Nat
  rbuf : Nat
deriving DecidableEq, Repr

/-- `BNCSConn`: transport, send buffer, deserialization buffer and the
rate limiter's earliest-next-send timestamp `lnxt` (real-valued
nanoseconds). -/
structure BNCSConnState where
  conn : Option Nat
  sbuf : List Nat
  rbuf : Nat
  lnxt : ℝ

/-- `CAPIConn` (websocket): the transport only. -/
structure CAPIConnState where
  conn : Option Nat
deriving DecidableEq, Repr

/-- `W3GSPacketConn.Send` (src/unnamed/part_000): nil transport returns
`(0, io.EOF)` untouched; otherwise truncate `sbuf`, serialize
(oracle `ser`: the encoded bytes or the serializer's error), then
`WriteTo` (oracle `wr`: bytes written and write error). -/
def w3gsPacketConnSend (s : W3GSPacketConnState) (ser : Except GoError (List Nat))
    (wr : Nat × Option GoError) : W3GSPacketConnState × Nat × Option GoError :=
  match s.conn with
  | none => (s, 0, some GoError.eof)
  | some _ =>
    match ser with
    | .error e => ({ s with sbuf := [] }, 0, some e)
    | .ok bs => ({ s with sbuf := bs }, wr.1, wr.2)

/-- `W3GSPacketConn.NextPacket`: nil transport returns `io.EOF`
untouched; with a non-zero timeout a failing `SetReadDeadline` (oracle
`ddl`) propagates; then `ReadFrom` into `bbuf` (oracle `rd`: datagram
bytes and source address, or read error) and deserialization (oracle
`des`: packet or decode error; `newRbuf` is the buffer state the
deserializer leaves behind). -/
def w3gsPacketConnNextPacket (s : W3GSPacketConnState) (timeout : Int)
    (ddl : Option GoError) (rd : Except GoError (List Nat × Nat))
    (des : Except GoError Nat) (newRbuf : Nat) :
    W3GSPacketConnState × Option (Nat × Nat) × Option GoError :=
  match s.conn with
  | none => (s, none, some GoError.eof)
  | some _ =>
    let step : W3GSPacketConnState × Option (Nat × Nat) × Option GoError :=
      match rd with
      | .error e => (s, none, some e)
      | .ok (bs, addr) =>
        let s1 := { s with bbuf := bs, rbuf := newRbuf }
        match des with
        | .error e => (s1, none, some e)
        | .ok pkt => (s1, some (pkt, addr), none)
    if timeout ≠ 0 then
      match ddl with
      | some e => (s, none, some e)
      | none => step
    else step

/-- `W3GSConn.Send`: nil transport returns `(0, io.EOF)` untouched;
otherwise `w3gs.SerializePacketWithBuffer` writes through `sbuf` to the
stream (oracle `res`: bytes written and error; `newSbuf`: the buffer
contents it leaves behind). -/
def w3gsConnSend (s : W3GSConnState) (res : Nat × Option GoError)
    (newSbuf : List Nat) : W3GSConnState × Nat × Option GoError :=
  match s.conn with
  | none => (s, 0, some GoError.eof)
  | some _ => ({ s with sbuf := newSbuf }, res.1, res.2)

/-- `W3GSConn.NextPacket`: nil transport returns `io.EOF` untouched;
non-zero timeout propagates a `SetReadDeadline` failure; then
`w3gs.DeserializePacketWithBuffer` reads from the stream (oracle `res`:
packet and error; `newRbuf`: deserialization buffer left behind). -/
def w3gsConnNextPacket (s : W3GSConnState) (timeout : Int) (ddl : Option GoError)
    (res : Option Nat × Option GoError) (newRbuf : Nat) :
    W3GSConnState × Option Nat × Option GoError :=
  match s.conn with
  | none => (s, none, some GoError.eof)
  | some _ =>
    if timeout ≠ 0 then
      match ddl with
      | some e => (s, none, some e)
      | none => ({ s with rbuf := newRbuf }, res.1, res.2)
    else ({ s with rbuf := newRbuf }, res.1, res.2)

/-- `BNCSConn.Send`: same shape as `W3GSConn.Send` with the bncs codec. -/
def bncsConnSend (s : BNCSConnState) (res : Nat × Option GoError)
    (newSbuf : List Nat) : BNCSConnState × Nat × Option GoError :=
  match s.conn with
  | none => (s, 0, some GoError.eof)
  | some _ => ({ s with sbuf := newSbuf }, res.1, res.2)

/-- `BNCSConn.NextClientPacket`: nil transport returns `io.EOF`
untouched; then deadline and `bncs.DeserializeClientPacketWithBuffer`. -/
def bncsNextClientPacket (s : BNCSConnState) (timeout : Int) (ddl : Option GoError)
    (res : Option Nat × Option GoError) (newRbuf : Nat) :
    BNCSConnState × Option Nat × Option GoError :=
  match s.conn with
  | none => (s, none, some GoError.eof)
  | some _ =>
    if timeout ≠ 0 then
      match ddl with
      | some e => (s, none, some e)
      | none => ({ s with rbuf := newRbuf }, res.1, res.2)
    else ({ s with rbuf := newRbuf }, res.1, res.2)

/-- `BNCSConn.NextServerPacket`: identical control flow with
`bncs.DeserializeServerPacketWithBuffer`. -/
def bncsNextServerPacket (s : BNCSConnState) (timeout : Int) (ddl : Option GoError)
    (res : Option Nat × Option GoError) (newRbuf : Nat) :
    BNCSConnState × Option Nat × Option GoError :=
  match s.conn with
  | none => (s, none, some GoError.eof)
  | some _ =>
    if timeout ≠ 0 then
      match ddl with
      | some e => (s, none, some e)
      | none => ({ s with rbuf := newRbuf }, res.1, res.2)
    else ({ s with rbuf := newRbuf }, res.1, res.2)

/-- `CAPIConn.Send`: nil transport returns `io.EOF`; otherwise
`NextWriter` (oracle `wcreate`) then `capi.SerializePacket` (oracle
`ser`).  Returns only an error, as in the source. -/
def capiConnSend (s : CAPIConnState) (wcreate : Except GoError Unit)
    (ser : Option GoError) : CAPIConnState × Option GoError :=
  match s.conn with
  | none => (s, some GoError.eof)
  | some _ =>
    match wcreate with
    | .error e => (s, some e)
    | .ok _ => (s, ser)

/-- `CAPIConn.NextPacket`: nil transport returns `io.EOF`; then
deadline, `NextReader` (oracle `nr`), `capi.DeserializePacket`
(oracle `des`), with the remainder of the frame discarded. -/
def capiConnNextPacket (s : CAPIConnState) (timeout : Int) (ddl : Option GoError)
    (nr : Option GoError) (des : Option CAPIPacket × Option GoError) :
    CAPIConnState × Option CAPIPacket × Option GoError :=
  match s.conn with
  | none => (s, none, some GoError.eof)
  | some _ =>
    let step : CAPIConnState × Option CAPIPacket × Option GoError :=
      match nr with
      | some e => (s, none, some e)
      | none => (s, des.1, des.2)
    if timeout ≠ 0 then
      match ddl with
      | some e => (s, none, some e)
      | none => step
    else step

/-!
## Close / SetConn

`Close` closes the attached transport if any (the handle keeps the
reference); `SetConn` first calls `Close`, then installs the new
transport under the exclusive lock.  The world `w : Nat → Bool` records
closed transports; `ce` is the oracle for the transport's own `Close()`
error.
-/

/-- `W3GSPacketConn.Close`. -/
def w3gsPacketConnClose (s : W3GSPacketConnState) (w : Nat → Bool)
    (ce : Option GoError) : (Nat → Bool) × Option GoError :=
  match s.conn with
  | none => (w, none)
  | some t => (fun x => if x = t then true else w x, ce)

/-- `W3GSPacketConn.SetConn`: `Close()` first, then install `newC`. -/
def w3gsPacketConnSetConn (s : W3GSPacketConnState) (w : Nat → Bool)
    (ce : Option GoError) (newC : Nat) : W3GSPacketConnState × (Nat → Bool) :=
  ({ s with conn := some newC }, (w3gsPacketConnClose s w ce).1)

/-- `W3GSPacketConn.Conn`. -/
def w3gsPacketConnConn (s : W3GSPacketConnState) : Option Nat := s.conn

/-- `W3GSConn.Close`. -/
def w3gsConnClose (s : W3GSConnState) (w : Nat → Bool)
    (ce : Option GoError) : (Nat → Bool) × Option GoError :=
  match s.conn with
  | none => (w, none)
  | some t => (fun x => if x = t then true else w x, ce)

/-- `W3GSConn.SetConn`. -/
def w3gsConnSetConn (s : W3GSConnState) (w : Nat → Bool)
    (ce : Option GoError) (newC : Nat) : W3GSConnState × (Nat → Bool) :=
  ({ s with conn := some newC }, (w3gsConnClose s w ce).1)

/-- `W3GSConn.Conn`. -/
def w3gsConnConn (s : W3GSConnState) : Option Nat := s.conn

/-- `BNCSConn.Close`. -/
def bncsConnClose (s : BNCSConnState) (w : Nat → Bool)
    (ce : Option GoError) : (Nat → Bool) × Option GoError :=
  match s.conn with
  | none => (w, none)
  | some t => (fun x => if x = t then true else w x, ce)

/-- `BNCSConn.SetConn`. -/
def bncsConnSetConn (s : BNCSConnState) (w : Nat → Bool)
    (ce : Option GoError) (newC : Nat) : BNCSConnState × (Nat → Bool) :=
  ({ s with conn := some newC }, (bncsConnClose s w ce).1)

/-- `BNCSConn.Conn`. -/
def bncsConnConn (s : BNCSConnState) : Option Nat := s.conn

/-- `CAPIConn.Close`. -/
def capiConnClose (s : CAPIConnState) (w : Nat → Bool)
    (ce : Option GoError) : (Nat → Bool) × Option GoError :=
  match s.conn with
  | none => (w, none)
  | some t => (fun x => if x = t then true else w x, ce)

/-- `CAPIConn.SetConn`. -/
def capiConnSetConn (s : CAPIConnState) (w : Nat → Bool)
    (ce : Option GoError) (newC : Nat) : CAPIConnState × (Nat → Bool) :=
  ({ s with conn := some newC }, (capiConnClose s w ce).1)

/-- `CAPIConn.Conn`. -/
def capiConnConn (s : CAPIConnState) : Option Nat := s.conn

/-!
## Rate limiter (`BNCSConn.SendRL`)

The source computes, after a send reporting `n > 0` bytes written:

  `c.lnxt = time.Now().Add(time.Duration(math.Pow(math.Log(float64(n))/math.Log(4), 1.5)) * (1300 * time.Millisecond))`

`time.Duration(x)` truncates the float to an integer count *before* the
multiplication by 1300ms, so the stored delay is
`⌊(log₄ n)^1.5⌋ × 1300ms`.  Floats are modelled by real numbers; the
truncation equals `Int.floor` since the multiplier is non-negative for
every `n ≥ 1`.  Times are in nanoseconds.
-/

/-- `math.Pow(math.Log(float64(n))/math.Log(4), 1.5)`. -/
noncomputable def rateMultiplier (n : Int) : ℝ :=
  (Real.log (n : ℝ) / Real.log 4) ^ (1.5 : ℝ)

/-- The delay the source actually stores, in nanoseconds:
`time.Duration(rateMultiplier n) * 1300ms`. -/
noncomputable def bncsRateDelayNs (n : Int) : Int :=
  ⌊rateMultiplier n⌋ * 1300000000

/-- The `lnxt` update of `BNCSConn.SendRL`: for `n > 0` bytes written,
`now` plus the stored delay; otherwise `lnxt` is unchanged. -/
noncomputable def bncsSendRLNext (now : ℝ) (n : Int) (lnxt : ℝ) : ℝ :=
  if 0 < n then now + (bncsRateDelayNs n : ℝ) else lnxt

/-- The delay the spec's formula describes, in nanoseconds:
`1300ms × (log₄ n)^1.5` without truncation. -/
noncomputable def rateDelaySpecNs (n : Int) : ℝ :=
  rateMultiplier n * 1300000000

/-!
## Spec-side definitions

For the refinement-style claims, a second definition follows the spec's
words and is proved equal to the one translated from the source.
-/

/-- Spec-side reading of `IsConnClosedError`: true exactly for
(possibly wrapped) end-of-stream, an error whose (innermost) message is
the closed-connection string, the listed abort/reset/shutdown/broken-pipe
codes with their Windows numeric equivalents, and the websocket
closed-session indicators (`ErrCloseSent` or any close error). -/
def connClosedSpec (e : GoError) : Bool :=
  let u := unnestError e
  decide (u = GoError.eof)
  || decide (errorString u = closedMsg)
  || (match u with | .errno n => connClosedCodes.contains n | _ => false)
  || decide (u = GoError.wsErrCloseSent)
  || isUnexpectedCloseError u

/-- Spec-side self-report query for the temporary capability: consult
the error itself, else its unnested innermost cause. -/
def temporarySelfReport (e : GoError) : Option Bool :=
  (temporaryM e).orElse (fun _ => temporaryM (unnestError e))

/-- Spec-side reading of `IsTemporaryError`: the self-reported value
when the error (or its unnested innermost cause) implements the
temporary capability, else fall back to the timeout classification. -/
def temporarySpec (e : GoError) : Bool :=
  (temporarySelfReport e).getD (isTimeoutError e)

theorem temporaryM_eq_base_of_not_wrapper (u : GoError) (h : isWrapper u = false) :
    temporaryM u = baseTemporaryM u := by
  cases u <;> simp_all [isWrapper, temporaryM, baseTemporaryM]

/-!
## Claims
-/

/-- C5: `UnnestError` recursively strips exactly the five wrapper kinds
(AsyncError, net.OpError, os.SyscallError, os.PathError, os.LinkError),
returns an innermost cause that is never itself a wrapper, is the
identity on any non-wrapper error, and on an AsyncError wrapping a
net.OpError wrapping an os.SyscallError returns the innermost syscall
cause. -/
theorem unnestError_characterization :
    (∀ src e, unnestError (GoError.asyncError src e) = unnestError e)
  ∧ (∀ e, unnestError (GoError.opError e) = unnestError e)
  ∧ (∀ e, unnestError (GoError.syscallError e) = unnestError e)
  ∧ (∀ e, unnestError (GoError.pathError e) = unnestError e)
  ∧ (∀ e, unnestError (GoError.linkError e) = unnestError e)
  ∧ (∀ e, isWrapper e = false → unnestError e = e)
  ∧ (∀ e, isWrapper (unnestError e) = false)
  ∧ (∀ src n, unnestError (GoError.asyncError src (GoError.opError
        (GoError.syscallError (GoError.errno n)))) = GoError.errno n) :=
  ⟨fun _ _ => rfl, fun _ => rfl, fun _ => rfl, fun _ => rfl, fun _ => rfl,
   unnestError_eq_self_of_not_wrapper, isWrapper_unnestError, fun _ _ => rfl⟩

theorem unnestError_characterization_witness :
    isWrapper (GoError.errno 5) = false ∧ unnestError (GoError.errno 5) = GoError.errno 5 :=
  ⟨by decide, unnestError_characterization.2.2.2.2.2.1 (GoError.errno 5) (by decide)⟩

/-- C10: `UnnestError` is idempotent; the innermost cause it returns is
never itself one of the five recognized wrapper kinds. -/
theorem unnestError_idempotent (e : GoError) :
    unnestError (unnestError e) = unnestError e :=
  unnestError_unnestError e

/-- C7: `IsTemporaryError` returns the self-reported temporary value of
the error (or of its unnested innermost cause) when the capability is
implemented, and otherwise falls back to `IsTimeoutError`. -/
theorem isTemporaryError_spec (e : GoError) :
    isTemporaryError e = temporarySpec e := by
  simp [isTemporaryError, temporarySpec, temporarySelfReport,
    temporaryM_eq_base_of_not_wrapper _ (isWrapper_unnestError e)]

/-- C6: `IsConnClosedError` is true exactly for (possibly wrapped)
io.EOF, an error whose message is "use of closed network connection",
the syscall codes ECONNABORTED, ECONNRESET, ENOTCONN, ESHUTDOWN, EPIPE
and the Windows numeric equivalents 10053, 10054, 10057, 10058, and the
websocket closed-session indicators; a file-not-found error classifies
as neither closed nor refused nor timeout. -/
theorem isConnClosedError_exact :
    (∀ e, isConnClosedError e = connClosedSpec e)
  ∧ (isConnClosedError (GoError.stringError "file not found") = false
     ∧ isConnRefusedError (GoError.stringError "file not found") = false
     ∧ isTimeoutError (GoError.stringError "file not found") = false)
  ∧ (isConnClosedError (GoError.pathError (GoError.errno 2)) = false
     ∧ isConnRefusedError (GoError.pathError (GoError.errno 2)) = false
     ∧ isTimeoutError (GoError.pathError (GoError.errno 2)) = false) := by
  refine ⟨fun e => ?_, by decide, by decide⟩
  have hw := isWrapper_unnestError e
  have huu := unnestError_unnestError e
  unfold isConnClosedError connClosedSpec
  revert hw huu
  generalize unnestError e = u
  intro hw huu
  cases u <;>
    simp_all [isUseClosedNetworkError, isSysCallError, isUnexpectedCloseError,
      isWrapper, errorString] <;>
    simp_all [closedMsg]

/-- C8: the error classifiers are pure total functions: they return a
defined result for every modelled error value, including nil and values
implementing no recognized self-reporting capability, and never fail.
(Totality and purity are intrinsic to the embedding — every definition
is a total function; this theorem records the defined results at nil
and at a capability-free value, and that each classifier yields a
boolean on every input.) -/
theorem error_classifiers_total :
    (unnestError GoError.nilError = GoError.nilError
      ∧ isTemporaryError GoError.nilError = false
      ∧ isTimeoutError GoError.nilError = false
      ∧ isConnClosedError GoError.nilError = false
      ∧ isConnRefusedError GoError.nilError = false)
  ∧ (∀ m, isTemporaryError (GoError.iface none none m) = false
      ∧ isTimeoutError (GoError.iface none none m) = false
      ∧ isConnRefusedError (GoError.iface none none m) = false
      ∧ isConnClosedError (GoError.iface none none m) = decide (m = closedMsg))
  ∧ (∀ e, (isTemporaryError e = true ∨ isTemporaryError e = false)
      ∧ (isTimeoutError e = true ∨ isTimeoutError e = false)
      ∧ (isConnClosedError e = true ∨ isConnClosedError e = false)
      ∧ (isConnRefusedError e = true ∨ isConnRefusedError e = false)) := by
  refine ⟨by decide, fun m => ⟨rfl, rfl, rfl, ?_⟩,
    fun e => ⟨Bool.eq_false_or_eq_true _, Bool.eq_false_or_eq_true _,
      Bool.eq_false_or_eq_true _, Bool.eq_false_or_eq_true _⟩⟩
  by_cases h : m = closedMsg <;>
    simp [isConnClosedError, isUseClosedNetworkError, isSysCallError,
      isUnexpectedCloseError, unnestError, errorString, h]

/-- C9: in the CAPI run loop a JSON structural or type-mismatch decode
error is recoverable — the loop fires an `AsyncError` and continues —
and every successfully decoded packet causes exactly two event firings:
the packet itself and then its inner payload. -/
theorem capi_run_recoverable_and_double_fire :
    (∀ off pkt rest, capiRunLoop ((pkt, GoError.jsonSyntaxError off) :: rest) =
        (Ev.asyncError "Run[NextPacket]" (GoError.jsonSyntaxError off) :: (capiRunLoop rest).1,
         (capiRunLoop rest).2))
  ∧ (∀ v pkt rest, capiRunLoop ((pkt, GoError.jsonUnmarshalTypeError v) :: rest) =
        (Ev.asyncError "Run[NextPacket]" (GoError.jsonUnmarshalTypeError v) :: (capiRunLoop rest).1,
         (capiRunLoop rest).2))
  ∧ (∀ pkt rest, capiRunLoop ((pkt, GoError.nilError) :: rest) =
        (Ev.fire (CAPIFire.packet pkt) :: Ev.fire (CAPIFire.payload pkt.payload pkt) ::
           (capiRunLoop rest).1,
         (capiRunLoop rest).2)) := by
  refine ⟨fun off pkt rest => ?_, fun v pkt rest => ?_, fun pkt rest => ?_⟩ <;>
    simp [capiRunLoop, capiRecoverable]

/-- C1 (counterexample to the claim as stated): for the message-framed
(CAPI) variant, the scenario "one recoverable decode error, one decoded
packet, one fatal error" does *not* fire exactly
RunStart, AsyncError, packet event, RunStop — an additional payload
event is fired after the packet event. -/
theorem capi_run_loop_extra_payload_event :
    capiRun [(⟨"", 0⟩, GoError.jsonSyntaxError 0), (⟨"msg", 7⟩, GoError.nilError),
             (⟨"", 0⟩, GoError.eof)] ≠
      ([Ev.runStart, Ev.asyncError "Run[NextPacket]" (GoError.jsonSyntaxError 0),
        Ev.fire (CAPIFire.packet ⟨"msg", 7⟩), Ev.runStop], some GoError.eof) := by
  decide

/-- C1 (amended): for every run-loop variant, on successive receive
outcomes "recoverable decode error, decoded packet, fatal error" the
loop fires exactly RunStart, one AsyncError wrapping the decode error,
the decoded-packet event(s) — for the message-framed variant the packet
event plus its payload event — then RunStop, and returns the fatal
error; moreover the error returned after the loop stops is never nil. -/
theorem run_loop_event_sequence :
    (∀ e1 e2 p a d d2, w3gsRecoverable e1 = true → w3gsRecoverable e2 = false →
        e2 ≠ GoError.nilError →
        w3gsPacketRun [(d, e1), ((p, a), GoError.nilError), (d2, e2)] =
          ([Ev.runStart, Ev.asyncError "Run[NextPacket]" e1, Ev.fire (p, a), Ev.runStop],
           some e2))
  ∧ (∀ e1 e2 p d d2, w3gsRecoverable e1 = true → w3gsRecoverable e2 = false →
        e2 ≠ GoError.nilError →
        w3gsConnRun [(d, e1), (p, GoError.nilError), (d2, e2)] =
          ([Ev.runStart, Ev.asyncError "Run[NextPacket]" e1, Ev.fire p, Ev.runStop], some e2))
  ∧ (∀ e1 e2 p d d2, bncsRecoverable e1 = true → bncsRecoverable e2 = false →
        e2 ≠ GoError.nilError →
        bncsRunServer [(d, e1), (p, GoError.nilError), (d2, e2)] =
          ([Ev.runStart, Ev.asyncError "RunServer[NextPacket]" e1, Ev.fire p, Ev.runStop],
           some e2))
  ∧ (∀ e1 e2 p d d2, bncsRecoverable e1 = true → bncsRecoverable e2 = false →
        e2 ≠ GoError.nilError →
        bncsRunClient [(d, e1), (p, GoError.nilError), (d2, e2)] =
          ([Ev.runStart, Ev.asyncError "RunClient[NextPacket]" e1, Ev.fire p, Ev.runStop],
           some e2))
  ∧ (∀ e1 e2 pkt d d2, capiRecoverable e1 = true → capiRecoverable e2 = false →
        e2 ≠ GoError.nilError →
        capiRun [(d, e1), (pkt, GoError.nilError), (d2, e2)] =
          ([Ev.runStart, Ev.asyncError "Run[NextPacket]" e1, Ev.fire (CAPIFire.packet pkt),
            Ev.fire (CAPIFire.payload pkt.payload pkt), Ev.runStop], some e2))
  ∧ (∀ outs, (w3gsPacketRun outs).2 ≠ some GoError.nilError)
  ∧ (∀ outs, (w3gsConnRun outs).2 ≠ some GoError.nilError)
  ∧ (∀ outs, (bncsRunServer outs).2 ≠ some GoError.nilError)
  ∧ (∀ outs, (bncsRunClient outs).2 ≠ some GoError.nilError)
  ∧ (∀ outs, (capiRun outs).2 ≠ some GoError.nilError) := by
  refine ⟨?_, ?_, ?_, ?_, ?_,
    fun outs => by simpa [w3gsPacketRun] using w3gsPacketRunLoop_ne_nil outs,
    fun outs => by simpa [w3gsConnRun] using w3gsConnRunLoop_ne_nil outs,
    fun outs => by simpa [bncsRunServer] using bncsRunServerLoop_ne_nil outs,
    fun outs => by simpa [bncsRunClient] using bncsRunClientLoop_ne_nil outs,
    fun outs => by simpa [capiRun] using capiRunLoop_ne_nil outs⟩
  · intro e1 e2 p a d d2 h1 h2 h3
    have h0 : e1 ≠ GoError.nilError := by
      intro h; rw [h] at h1; simp [w3gsRecoverable] at h1
    simp [w3gsPacketRun, w3gsPacketRunLoop, h0, h1, h2, h3]
  · intro e1 e2 p d d2 h1 h2 h3
    have h0 : e1 ≠ GoError.nilError := by
      intro h; rw [h] at h1; simp [w3gsRecoverable] at h1
    simp [w3gsConnRun, w3gsConnRunLoop, h0, h1, h2, h3]
  · intro e1 e2 p d d2 h1 h2 h3
    have h0 : e1 ≠ GoError.nilError := by
      intro h; rw [h] at h1; simp [bncsRecoverable] at h1
    simp [bncsRunServer, bncsRunServerLoop, h0, h1, h2, h3]
  · intro e1 e2 p d d2 h1 h2 h3
    have h0 : e1 ≠ GoError.nilError := by
      intro h; rw [h] at h1; simp [bncsRecoverable] at h1
    simp [bncsRunClient, bncsRunClientLoop, h0, h1, h2, h3]
  · intro e1 e2 pkt d d2 h1 h2 h3
    have h0 : e1 ≠ GoError.nilError := by
      intro h; rw [h] at h1; simp [capiRecoverable] at h1
    simp [capiRun, capiRunLoop, h0, h1, h2, h3]

theorem run_loop_event_sequence_witness :
    w3gsPacketRun [((0, 0), GoError.w3gsDecodeError DecodeErrKind.invalidChecksum),
                   ((7, 9), GoError.nilError), ((0, 0), GoError.eof)] =
      ([Ev.runStart,
        Ev.asyncError "Run[NextPacket]" (GoError.w3gsDecodeError DecodeErrKind.invalidChecksum),
        Ev.fire ((7 : Nat), (9 : Nat)), Ev.runStop], some GoError.eof)
  ∧ w3gsConnRun [(0, GoError.w3gsDecodeError DecodeErrKind.invalidPacketSize),
                 (5, GoError.nilError), (0, GoError.eof)] =
      ([Ev.runStart,
        Ev.asyncError "Run[NextPacket]" (GoError.w3gsDecodeError DecodeErrKind.invalidPacketSize),
        Ev.fire (5 : Nat), Ev.runStop], some GoError.eof)
  ∧ bncsRunServer [(0, GoError.bncsDecodeError DecodeErrKind.bufferTooSmall),
                   (6, GoError.nilError), (0, GoError.errno 104)] =
      ([Ev.runStart,
        Ev.asyncError "RunServer[NextPacket]" (GoError.bncsDecodeError DecodeErrKind.bufferTooSmall),
        Ev.fire (6 : Nat), Ev.runStop], some (GoError.errno 104))
  ∧ bncsRunClient [(0, GoError.bncsDecodeError DecodeErrKind.unexpectedConst),
                   (8, GoError.nilError), (0, GoError.eof)] =
      ([Ev.runStart,
        Ev.asyncError "RunClient[NextPacket]" (GoError.bncsDecodeError DecodeErrKind.unexpectedConst),
        Ev.fire (8 : Nat), Ev.runStop], some GoError.eof)
  ∧ capiRun [(⟨"", 0⟩, GoError.jsonSyntaxError 3), (⟨"msg", 7⟩, GoError.nilError),
             (⟨"", 0⟩, GoError.eof)] =
      ([Ev.runStart, Ev.asyncError "Run[NextPacket]" (GoError.jsonSyntaxError 3),
        Ev.fire (CAPIFire.packet ⟨"msg", 7⟩),
        Ev.fire (CAPIFire.payload 7 ⟨"msg", 7⟩), Ev.runStop], some GoError.eof)
  ∧ (w3gsPacketRun []).2 ≠ some GoError.nilError :=
  ⟨run_loop_event_sequence.1 (GoError.w3gsDecodeError DecodeErrKind.invalidChecksum)
      GoError.eof 7 9 (0, 0) (0, 0) (by decide) (by decide) (by decide),
   run_loop_event_sequence.2.1 (GoError.w3gsDecodeError DecodeErrKind.invalidPacketSize)
      GoError.eof 5 0 0 (by decide) (by decide) (by decide),
   run_loop_event_sequence.2.2.1 (GoError.bncsDecodeError DecodeErrKind.bufferTooSmall)
      (GoError.errno 104) 6 0 0 (by decide) (by decide) (by decide),
   run_loop_event_sequence.2.2.2.1 (GoError.bncsDecodeError DecodeErrKind.unexpectedConst)
      GoError.eof 8 0 0 (by decide) (by decide) (by decide),
   run_loop_event_sequence.2.2.2.2.1 (GoError.jsonSyntaxError 3) GoError.eof
      ⟨"msg", 7⟩ ⟨"", 0⟩ ⟨"", 0⟩ (by decide) (by decide) (by decide),
   run_loop_event_sequence.2.2.2.2.2.1 []⟩

/-- C2: every transport-needing operation on a handle whose transport is
nil returns immediately with io.EOF, zero bytes written / no packet, and
leaves the handle state (buffers, rate-limiter timestamp, transport
reference) unchanged. -/
theorem no_transport_ops_eof :
    (∀ (s : W3GSPacketConnState) ser wr, s.conn = none →
        w3gsPacketConnSend s ser wr = (s, 0, some GoError.eof))
  ∧ (∀ (s : W3GSPacketConnState) t ddl rd des nr, s.conn = none →
        w3gsPacketConnNextPacket s t ddl rd des nr = (s, none, some GoError.eof))
  ∧ (∀ (s : W3GSConnState) res nb, s.conn = none →
        w3gsConnSend s res nb = (s, 0, some GoError.eof))
  ∧ (∀ (s : W3GSConnState) t ddl res nr, s.conn = none →
        w3gsConnNextPacket s t ddl res nr = (s, none, some GoError.eof))
  ∧ (∀ (s : BNCSConnState) res nb, s.conn = none →
        bncsConnSend s res nb = (s, 0, some GoError.eof))
  ∧ (∀ (s : BNCSConnState) t ddl res nr, s.conn = none →
        bncsNextClientPacket s t ddl res nr = (s, none, some GoError.eof))
  ∧ (∀ (s : BNCSConnState) t ddl res nr, s.conn = none →
        bncsNextServerPacket s t ddl res nr = (s, none, some GoError.eof))
  ∧ (∀ (s : CAPIConnState) wc ser, s.conn = none →
        capiConnSend s wc ser = (s, some GoError.eof))
  ∧ (∀ (s : CAPIConnState) t ddl nr des, s.conn = none →
        capiConnNextPacket s t ddl nr des = (s, none, some GoError.eof)) :=
  ⟨fun s ser wr h => by simp [w3gsPacketConnSend, h],
   fun s t ddl rd des nr h => by simp [w3gsPacketConnNextPacket, h],
   fun s res nb h => by simp [w3gsConnSend, h],
   fun s t ddl res nr h => by simp [w3gsConnNextPacket, h],
   fun s res nb h => by simp [bncsConnSend, h],
   fun s t ddl res nr h => by simp [bncsNextClientPacket, h],
   fun s t ddl res nr h => by simp [bncsNextServerPacket, h],
   fun s wc ser h => by simp [capiConnSend, h],
   fun s t ddl nr des h => by simp [capiConnNextPacket, h]⟩

theorem no_transport_ops_eof_witness :
    w3gsPacketConnSend ⟨none, [], [], 0⟩ (Except.ok []) (0, none) =
      (⟨none, [], [], 0⟩, 0, some GoError.eof)
  ∧ w3gsPacketConnNextPacket ⟨none, [], [], 0⟩ 0 none (Except.ok ([], 0)) (Except.ok 0) 0 =
      (⟨none, [], [], 0⟩, none, some GoError.eof)
  ∧ w3gsConnSend ⟨none, [], 0⟩ (0, none) [] = (⟨none, [], 0⟩, 0, some GoError.eof)
  ∧ w3gsConnNextPacket ⟨none, [], 0⟩ 0 none (none, none) 0 =
      (⟨none, [], 0⟩, none, some GoError.eof)
  ∧ bncsConnSend ⟨none, [], 0, 0⟩ (0, none) [] = (⟨none, [], 0, 0⟩, 0, some GoError.eof)
  ∧ bncsNextClientPacket ⟨none, [], 0, 0⟩ 0 none (none, none) 0 =
      (⟨none, [], 0, 0⟩, none, some GoError.eof)
  ∧ bncsNextServerPacket ⟨none, [], 0, 0⟩ 0 none (none, none) 0 =
      (⟨none, [], 0, 0⟩, none, some GoError.eof)
  ∧ capiConnSend ⟨none⟩ (Except.ok ()) none = (⟨none⟩, some GoError.eof)
  ∧ capiConnNextPacket ⟨none⟩ 0 none none (none, none) = (⟨none⟩, none, some GoError.eof) :=
  ⟨no_transport_ops_eof.1 _ _ _ rfl,
   no_transport_ops_eof.2.1 _ _ _ _ _ _ rfl,
   no_transport_ops_eof.2.2.1 _ _ _ rfl,
   no_transport_ops_eof.2.2.2.1 _ _ _ _ _ rfl,
   no_transport_ops_eof.2.2.2.2.1 _ _ _ rfl,
   no_transport_ops_eof.2.2.2.2.2.1 _ _ _ _ _ rfl,
   no_transport_ops_eof.2.2.2.2.2.2.1 _ _ _ _ _ rfl,
   no_transport_ops_eof.2.2.2.2.2.2.2.1 _ _ _ rfl,
   no_transport_ops_eof.2.2.2.2.2.2.2.2 _ _ _ _ _ rfl⟩

/-- C4: for every connection variant, `SetConn(new)` closes the
currently attached transport (if any) before installing `new`: once
`SetConn` returns, `Conn` yields `new` and the previous transport is
recorded closed. -/
theorem setConn_closes_old_installs_new :
    (∀ (s : W3GSPacketConnState) w ce newC,
        w3gsPacketConnConn (w3gsPacketConnSetConn s w ce newC).1 = some newC
        ∧ ∀ t, s.conn = some t → (w3gsPacketConnSetConn s w ce newC).2 t = true)
  ∧ (∀ (s : W3GSConnState) w ce newC,
        w3gsConnConn (w3gsConnSetConn s w ce newC).1 = some newC
        ∧ ∀ t, s.conn = some t → (w3gsConnSetConn s w ce newC).2 t = true)
  ∧ (∀ (s : BNCSConnState) w ce newC,
        bncsConnConn (bncsConnSetConn s w ce newC).1 = some newC
        ∧ ∀ t, s.conn = some t → (bncsConnSetConn s w ce newC).2 t = true)
  ∧ (∀ (s : CAPIConnState) w ce newC,
        capiConnConn (capiConnSetConn s w ce newC).1 = some newC
        ∧ ∀ t, s.conn = some t → (capiConnSetConn s w ce newC).2 t = true) :=
  ⟨fun s w ce newC => ⟨rfl, fun t ht => by
      simp [w3gsPacketConnSetConn, w3gsPacketConnClose, ht]⟩,
   fun s w ce newC => ⟨rfl, fun t ht => by
      simp [w3gsConnSetConn, w3gsConnClose, ht]⟩,
   fun s w ce newC => ⟨rfl, fun t ht => by
      simp [bncsConnSetConn, bncsConnClose, ht]⟩,
   fun s w ce newC => ⟨rfl, fun t ht => by
      simp [capiConnSetConn, capiConnClose, ht]⟩⟩

theorem setConn_closes_old_installs_new_witness :
    w3gsPacketConnConn (w3gsPacketConnSetConn ⟨some 3, [], [], 0⟩ (fun _ => false) none 5).1 = some 5
  ∧ (w3gsPacketConnSetConn ⟨some 3, [], [], 0⟩ (fun _ => false) none 5).2 3 = true
  ∧ w3gsConnConn (w3gsConnSetConn ⟨some 3, [], 0⟩ (fun _ => false) none 5).1 = some 5
  ∧ (w3gsConnSetConn ⟨some 3, [], 0⟩ (fun _ => false) none 5).2 3 = true
  ∧ bncsConnConn (bncsConnSetConn ⟨some 3, [], 0, 0⟩ (fun _ => false) none 5).1 = some 5
  ∧ (bncsConnSetConn ⟨some 3, [], 0, 0⟩ (fun _ => false) none 5).2 3 = true
  ∧ capiConnConn (capiConnSetConn ⟨some 3⟩ (fun _ => false) none 5).1 = some 5
  ∧ (capiConnSetConn ⟨some 3⟩ (fun _ => false) none 5).2 3 = true :=
  ⟨(setConn_closes_old_installs_new.1 ⟨some 3, [], [], 0⟩ (fun _ => false) none 5).1,
   (setConn_closes_old_installs_new.1 ⟨some 3, [], [], 0⟩ (fun _ => false) none 5).2 3 rfl,
   (setConn_closes_old_installs_new.2.1 ⟨some 3, [], 0⟩ (fun _ => false) none 5).1,
   (setConn_closes_old_installs_new.2.1 ⟨some 3, [], 0⟩ (fun _ => false) none 5).2 3 rfl,
   (setConn_closes_old_installs_new.2.2.1 ⟨some 3, [], 0, 0⟩ (fun _ => false) none 5).1,
   (setConn_closes_old_installs_new.2.2.1 ⟨some 3, [], 0, 0⟩ (fun _ => false) none 5).2 3 rfl,
   (setConn_closes_old_installs_new.2.2.2 ⟨some 3⟩ (fun _ => false) none 5).1,
   (setConn_closes_old_installs_new.2.2.2 ⟨some 3⟩ (fun _ => false) none 5).2 3 rfl⟩

theorem log2_div_log4 : Real.log 2 / Real.log 4 = 1 / 2 := by
  have h4 : Real.log 4 = 2 * Real.log 2 := by
    rw [show (4 : ℝ) = 2 ^ 2 by norm_num, Real.log_pow]
    push_cast; ring
  have h2 : Real.log 2 ≠ 0 := ne_of_gt (Real.log_pos (by norm_num))
  rw [h4]
  field_simp
  ring

theorem rateMultiplier_two_pos : 0 < rateMultiplier 2 := by
  unfold rateMultiplier
  rw [show ((2 : ℤ) : ℝ) = (2 : ℝ) by norm_num, log2_div_log4]
  exact Real.rpow_pos_of_pos (by norm_num) _

theorem rateMultiplier_two_lt_one : rateMultiplier 2 < 1 := by
  unfold rateMultiplier
  rw [show ((2 : ℤ) : ℝ) = (2 : ℝ) by norm_num, log2_div_log4]
  exact Real.rpow_lt_one (by norm_num) (by norm_num) (by norm_num)

theorem bncsRateDelayNs_two : bncsRateDelayNs 2 = 0 := by
  unfold bncsRateDelayNs
  rw [Int.floor_eq_zero_iff.mpr
    (Set.mem_Ico.mpr ⟨le_of_lt rateMultiplier_two_pos, rateMultiplier_two_lt_one⟩)]
  ring

theorem bncsRateDelayNs_four : bncsRateDelayNs 4 = 1300000000 := by
  unfold bncsRateDelayNs rateMultiplier
  rw [show ((4 : ℤ) : ℝ) = (4 : ℝ) by norm_num,
    div_self (ne_of_gt (Real.log_pos (by norm_num : (1 : ℝ) < 4))),
    Real.one_rpow, Int.floor_one, one_mul]

/-- C3 (code bug): the source converts `math.Pow(log(n)/log(4), 1.5)` to
an integer `time.Duration` *before* multiplying by 1300ms, so the stored
delay is `⌊(log₄ n)^1.5⌋ × 1300ms`, not the `1300ms × (log₄ n)^1.5` of
the claim and of the comment right above the line ("~2.8s for packet
size 10" — the code yields 2.6s there).  At `n = 2` the code stores zero
delay while the claimed formula is strictly positive; the `n = 4` case
(exactly 1300ms) and the `n ≤ 0` case (state unchanged) behave as
claimed. -/
theorem sendRL_formula_truncation :
    (∀ now lnxt : ℝ, bncsSendRLNext now 2 lnxt = now)
  ∧ rateDelaySpecNs 2 ≠ 0
  ∧ (∀ now lnxt : ℝ, bncsSendRLNext now 4 lnxt = now + 1300000000)
  ∧ (∀ now lnxt : ℝ, bncsSendRLNext now 0 lnxt = lnxt ∧ bncsSendRLNext now (-5) lnxt = lnxt) := by
  refine ⟨fun now lnxt => ?_, ?_, fun now lnxt => ?_, fun now lnxt => ⟨?_, ?_⟩⟩
  · rw [bncsSendRLNext, if_pos (by norm_num : (0 : ℤ) < 2), bncsRateDelayNs_two]
    norm_num
  · unfold rateDelaySpecNs
    exact mul_ne_zero (ne_of_gt rateMultiplier_two_pos) (by norm_num)
  · rw [bncsSendRLNext, if_pos (by norm_num : (0 : ℤ) < 4), bncsRateDelayNs_four]
    norm_num
  · rw [bncsSendRLNext, if_neg (by norm_num : ¬ (0 : ℤ) < 0)]
  · rw [bncsSendRLNext, if_neg (by norm_num : ¬ (0 : ℤ) < -5)]
